import Mathlib

/-!
Verification development for the PDF compression pipeline
(`src/app.py`, `src/app.py.py`).

The scripts are shallowly embedded: the filesystem is a finite map from
paths to file sizes, the external Ghostscript binary is a black-box
behaviour record, Python exceptions become an explicit error type, and
the Streamlit script flow becomes a pure function from an environment
(tool probe outcome, clock, upload, UI choices) to an outcome and a
final filesystem.
-/

/-- The filesystem: each existing path maps to its size in bytes. -/
def FS : Type := String → Option Nat

/-- Model of `os.path.getsize` (as a partial lookup: `none` means the
path does not exist, where Python raises `FileNotFoundError`). -/
def FS.getsize (fs : FS) (p : String) : Option Nat := fs p

/-- Model of `os.path.exists`. -/
def FS.pathExists (fs : FS) (p : String) : Bool := (fs p).isSome

/-- Creating or overwriting a file of a given size at a path. -/
def FS.write (fs : FS) (p : String) (sz : Nat) : FS :=
  fun q => if q = p then some sz else fs q

/-- Model of `os.remove` guarded by `os.path.exists` (the cleanup idiom
`if os.path.exists(p): os.remove(p)`): afterwards the path is absent. -/
def FS.remove (fs : FS) (p : String) : FS :=
  fun q => if q = p then none else fs q

/-- The empty filesystem. -/
def FS.empty : FS := fun _ => none

/-- Outcome of the probe `subprocess.run(["gs", "--version"], check=True)`
in `check_ghostscript_installed`: the run either succeeds, raises
`CalledProcessError` (nonzero exit), or raises `FileNotFoundError`
(no `gs` executable on PATH). -/
inductive GsProbe
  | versionOk
  | calledProcessError
  | fileNotFound
deriving DecidableEq

/-- `check_ghostscript_installed` from `src/app.py` lines 17-26.  The
source body only runs the probe and catches the two exceptions; it never
reads the filesystem, so the `fs` argument is deliberately unused -- it
is threaded through to let theorems speak about candidate paths that may
or may not exist on disk. -/
def check_ghostscript_installed (probe : GsProbe) (_fs : FS) : Bool :=
  match probe with
  | GsProbe.versionOk => true
  | GsProbe.calledProcessError => false
  | GsProbe.fileNotFound => false

/-- Python `datetime.time`: hour, minute, second, microsecond. -/
structure PyTime where
  hour : Nat
  minute : Nat
  second : Nat
  microsecond : Nat
deriving DecidableEq

/-- `datetime.time(0, 21)` from the source: second and microsecond
default to 0. -/
def restricted_time : PyTime := ⟨0, 21, 0, 0⟩

/-- `is_restricted_time` from `src/app.py` lines 29-32 (identical in
`src/app.py.py` lines 13-16): Python `==` on `datetime.time` compares
hour, minute, second and microsecond. -/
def is_restricted_time (now : PyTime) : Bool :=
  decide (now = restricted_time)

/-- The closed preset vocabulary: keys of the `qualities` dict in
`src/app.py` (the same strings as the list in `src/app.py.py`). -/
def qualities : List String := ["screen", "ebook", "printer", "prepress"]

/-- An ASCII single-quote character, as Python `repr` uses around
strings. -/
def squote : String := String.mk [Char.ofNat 39]

/-- Python `repr` of a string (single-quoted). -/
def pyReprStr (s : String) : String := squote ++ s ++ squote

/-- Python `str` of a list of strings, as produced by the f-string
`f"... \x7blist(qualities.keys())\x7d"` in the source. -/
def pyListRepr (xs : List String) : String :=
  "[" ++ String.intercalate ", " (xs.map pyReprStr) ++ "]"

/-- The Ghostscript argument list built by `compress_pdf_gs` in
`src/app.py` lines 47-60. -/
def gsCommand (input_pdf output_pdf quality : String) : List String :=
  ["gs",
   "-sDEVICE=pdfwrite",
   "-dCompatibilityLevel=1.4",
   "-dPDFSETTINGS=/" ++ quality,
   "-dNOPAUSE",
   "-dQUIET",
   "-dBATCH",
   "-dDetectDuplicateImages=true",
   "-dCompressFonts=true",
   "-dOptimize=true",
   "-sOutputFile=" ++ output_pdf,
   input_pdf]

/-- Black-box behaviour of one Ghostscript invocation: its exit code,
its standard-error bytes (decoded), and whether (and at what size) it
wrote the output file. -/
structure GsRun where
  exitCode : Nat
  stderr : String
  outWrite : Option Nat
deriving DecidableEq

/-- Result of `compress_pdf_gs`: returned `True`, raised
`ValueError` (invalid preset), or raised `RuntimeError` (tool failure). -/
inductive GsOutcome
  | ok
  | invalidPreset (msg : String)
  | toolError (msg : String)
deriving DecidableEq

/-- `compress_pdf_gs` from `src/app.py` lines 35-67.  Returns the
outcome, the filesystem after the invocation, and the list of
subprocess commands actually executed (empty when validation fails
before `subprocess.run`).  The error messages are the source f-strings;
`.strip()` on the decoded stderr is modelled by `String.trim`. -/
def compress_pdf_gs (g : GsRun) (fs : FS) (input_pdf output_pdf : String)
    (quality : String := "screen") : GsOutcome × FS × List (List String) :=
  if quality ∉ qualities then
    (GsOutcome.invalidPreset ("Invalid quality. Choose from: " ++ pyListRepr qualities),
     fs, [])
  else
    let fs1 := match g.outWrite with
      | some n => FS.write fs output_pdf n
      | none => fs
    if g.exitCode = 0 then
      (GsOutcome.ok, fs1, [gsCommand input_pdf output_pdf quality])
    else
      (GsOutcome.toolError ("Ghostscript compression failed: " ++ g.stderr.trim),
       fs1, [gsCommand input_pdf output_pdf quality])

/-- Python exceptions that the pipeline try-block can raise, all caught
by the generic `except Exception` handler. -/
inductive PyExc
  | zeroDivisionError
  | runtimeError (msg : String)
  | valueError (msg : String)
  | fileNotFoundError (path : String)
deriving DecidableEq

/-- What the UI shows at the end of a run: the success metrics
(original size, compressed size, reduction percentage) or the caught
error. -/
inductive Display
  | success (original_size new_size : Nat) (pct : ℚ)
  | errorShown (e : PyExc)
deriving DecidableEq

/-- The staging step, `src/app.py` lines 132-136: the uploaded bytes are
persisted to the input temp file, and `tempfile.NamedTemporaryFile`
with `delete=False` is called for the output path -- which, per the
`tempfile` contract, creates an (empty) file at that path. -/
def stagedFS (fs : FS) (inputPath outputPath : String) (uploadSize : Nat) : FS :=
  FS.write (FS.write fs inputPath uploadSize) outputPath 0

/-- The body of the pipeline try-block, `src/app.py` lines 138-171:
measure the original size, invoke `compress_pdf_gs`, measure the
compressed size, compute the reduction percentage
`(1 - new_size / original_size) * 100` -- unguarded, so a zero original
size raises `ZeroDivisionError` exactly as Python division does. -/
def pipelineBody (g : GsRun) (quality inputPath outputPath : String) (fs : FS) :
    Except PyExc (Nat × Nat × ℚ) × FS :=
  match FS.getsize fs inputPath with
  | none => (Except.error (PyExc.fileNotFoundError inputPath), fs)
  | some original_size =>
    match compress_pdf_gs g fs inputPath outputPath quality with
    | (GsOutcome.invalidPreset m, fs1, _) => (Except.error (PyExc.valueError m), fs1)
    | (GsOutcome.toolError m, fs1, _) => (Except.error (PyExc.runtimeError m), fs1)
    | (GsOutcome.ok, fs1, _) =>
      match FS.getsize fs1 outputPath with
      | none => (Except.error (PyExc.fileNotFoundError outputPath), fs1)
      | some new_size =>
        if original_size = 0 then
          (Except.error PyExc.zeroDivisionError, fs1)
        else
          (Except.ok (original_size, new_size,
            ((1 : ℚ) - (new_size : ℚ) / (original_size : ℚ)) * 100), fs1)

/-- Rendering the try-block result: success metrics or the message of
the caught exception. -/
def displayOf : Except PyExc (Nat × Nat × ℚ) → Display
  | Except.ok (a, b, r) => Display.success a b r
  | Except.error e => Display.errorShown e

/-- One full pipeline run, `src/app.py` lines 129-180: stage both temp
files, run the try-block, then the `finally` cleanup deletes both temp
paths whatever happened in between. -/
def pipelineRun (g : GsRun) (quality inputPath outputPath : String)
    (uploadSize : Nat) (fs0 : FS) : Display × FS :=
  (displayOf (pipelineBody g quality inputPath outputPath
      (stagedFS fs0 inputPath outputPath uploadSize)).1,
   FS.remove (FS.remove (pipelineBody g quality inputPath outputPath
      (stagedFS fs0 inputPath outputPath uploadSize)).2 inputPath) outputPath)

/-- The three radio options of `src/app.py` line 114-118. -/
inductive CompressionChoice
  | medium
  | high
  | maximum
deriving DecidableEq

/-- `quality_map` from `src/app.py` lines 120-124. -/
def quality_map : CompressionChoice → String
  | CompressionChoice.medium => "ebook"
  | CompressionChoice.high => "printer"
  | CompressionChoice.maximum => "screen"

/-- The two radio options of `src/app.py.py` lines 55-59. -/
inductive CompressionChoiceV2
  | less
  | extreme
deriving DecidableEq

/-- The quality selection of `src/app.py.py` line 80:
`"ebook" if "Less" in compression_type else "screen"`. -/
def qualityOfV2 : CompressionChoiceV2 → String
  | CompressionChoiceV2.less => "ebook"
  | CompressionChoiceV2.extreme => "screen"

/-- The install-guidance message shown by `src/app.py` lines 75-88. -/
def installInstructions : String :=
  "Ghostscript not found! This app requires Ghostscript to be installed: " ++
  "Linux/WSL: sudo apt-get install ghostscript; " ++
  "Windows: download from ghostscript.com; MacOS: brew install ghostscript"

/-- Terminal outcome of one script run of `src/app.py`. -/
inductive ScriptOutcome
  | toolUnavailable (msg : String)
  | restricted
  | idle
  | fileTooLarge
  | ran (d : Display)
deriving DecidableEq

/-- The environment of one script run: the tool probe outcome, the
current local time, the upload (name and size) if any, the chosen
compression level, whether the button was pressed, the external tool
behaviour, and the two fresh temp paths the allocator would hand out. -/
structure Env where
  probe : GsProbe
  now : PyTime
  upload : Option (String × Nat)
  choice : CompressionChoice
  buttonPressed : Bool
  gs : GsRun
  inputPath : String
  outputPath : String

/-- The top-level script flow of `src/app.py` lines 74-180: the
Ghostscript availability gate (`st.stop()` on failure), the
restricted-time gate, the upload and its 50 MB cap, then the
compression pipeline when the button is pressed. -/
def appMain (env : Env) (fs0 : FS) : ScriptOutcome × FS :=
  if ¬ check_ghostscript_installed env.probe fs0 then
    (ScriptOutcome.toolUnavailable installInstructions, fs0)
  else if is_restricted_time env.now then
    (ScriptOutcome.restricted, fs0)
  else
    match env.upload with
    | none => (ScriptOutcome.idle, fs0)
    | some (_, size) =>
      if size > 50 * 1024 * 1024 then (ScriptOutcome.fileTooLarge, fs0)
      else if env.buttonPressed then
        let r := pipelineRun env.gs (quality_map env.choice)
          env.inputPath env.outputPath size fs0
        (ScriptOutcome.ran r.1, r.2)
      else (ScriptOutcome.idle, fs0)

/-- Classifier used to state that a result is not the invalid-preset
error. -/
def isInvalidPreset : GsOutcome → Bool
  | GsOutcome.invalidPreset _ => true
  | _ => false

-- Helper lemmas about the filesystem model.

theorem FS.pathExists_remove_self (fs : FS) (p : String) :
    FS.pathExists (FS.remove fs p) p = false := by
  simp [FS.pathExists, FS.remove]

theorem FS.pathExists_write_self (fs : FS) (p : String) (sz : Nat) :
    FS.pathExists (FS.write fs p sz) p = true := by
  simp [FS.pathExists, FS.write]

/-- Claim C1: for every pipeline run that reaches the staging step,
whether the try-block succeeds or fails with any error, after the
`finally` cleanup neither the staged input temp file nor the output
temp file remains on disk. -/
theorem C1_cleanup_unconditional (g : GsRun) (quality inputPath outputPath : String)
    (uploadSize : Nat) (fs0 : FS) :
    FS.pathExists (pipelineRun g quality inputPath outputPath uploadSize fs0).2 inputPath = false ∧
    FS.pathExists (pipelineRun g quality inputPath outputPath uploadSize fs0).2 outputPath = false := by
  unfold pipelineRun
  constructor <;> simp [FS.pathExists, FS.remove]

/-- Claim C3: for every preset string outside the enumerated set,
`compress_pdf_gs` fails with the invalid-preset error whose message
lists the full set of valid choices, leaves the filesystem untouched,
and executes no subprocess command. -/
theorem C3_invalid_preset (g : GsRun) (fs : FS) (input_pdf output_pdf quality : String)
    (h : quality ∉ qualities) :
    compress_pdf_gs g fs input_pdf output_pdf quality =
      (GsOutcome.invalidPreset ("Invalid quality. Choose from: " ++ pyListRepr qualities),
       fs, []) := by
  simp [compress_pdf_gs, h]

/-- Witness for C3 at the concrete invalid preset "low". -/
theorem C3_invalid_preset_witness :
    "low" ∉ qualities ∧
    compress_pdf_gs ⟨0, "", none⟩ FS.empty "in.pdf" "out.pdf" "low" =
      (GsOutcome.invalidPreset ("Invalid quality. Choose from: " ++ pyListRepr qualities),
       FS.empty, []) :=
  ⟨by decide, C3_invalid_preset ⟨0, "", none⟩ FS.empty "in.pdf" "out.pdf" "low" (by decide)⟩

/-- Claim C4: for a valid preset, a nonzero tool exit code makes
`compress_pdf_gs` fail with the external-tool error carrying the
decoded (and stripped) standard-error text, while exit code 0 makes it
return success. -/
theorem C4_exit_code (g : GsRun) (fs : FS) (input_pdf output_pdf quality : String)
    (hq : quality ∈ qualities) :
    (g.exitCode ≠ 0 →
      (compress_pdf_gs g fs input_pdf output_pdf quality).1 =
        GsOutcome.toolError ("Ghostscript compression failed: " ++ g.stderr.trim)) ∧
    (g.exitCode = 0 →
      (compress_pdf_gs g fs input_pdf output_pdf quality).1 = GsOutcome.ok) := by
  constructor <;> intro he <;> simp [compress_pdf_gs, hq, he]

/-- Witness for C4: a failing invocation with stderr " boom " and a
succeeding one, both with preset "ebook". -/
theorem C4_exit_code_witness :
    (compress_pdf_gs ⟨1, " boom ", none⟩ FS.empty "i.pdf" "o.pdf" "ebook").1 =
      GsOutcome.toolError ("Ghostscript compression failed: " ++ String.trim " boom ") ∧
    (compress_pdf_gs ⟨0, "", some 7⟩ FS.empty "i.pdf" "o.pdf" "ebook").1 = GsOutcome.ok :=
  ⟨(C4_exit_code ⟨1, " boom ", none⟩ FS.empty "i.pdf" "o.pdf" "ebook" (by decide)).1
     (by decide),
   (C4_exit_code ⟨0, "", some 7⟩ FS.empty "i.pdf" "o.pdf" "ebook" (by decide)).2 rfl⟩

/-- A filesystem on which a typical platform-specific candidate path
for the Ghostscript binary exists. -/
def fsWithCandidate : FS :=
  fun p => if p = "/usr/local/bin/gs" then some 1 else none

/-- Counterexample to claim C6 as stated: when the default invocation
fails, `check_ghostscript_installed` reports absent even though a
candidate binary path exists on disk -- the source never consults any
fallback path list. -/
theorem C6_counterexample :
    FS.pathExists fsWithCandidate "/usr/local/bin/gs" = true ∧
    check_ghostscript_installed GsProbe.fileNotFound fsWithCandidate = false := by
  constructor
  · simp [FS.pathExists, fsWithCandidate]
  · rfl

/-- Claim C6 (amended): the locator attempts the default invocation by
executable name and reports present exactly when that probe succeeds;
on failure (nonzero exit or missing executable) it reports absent
without consulting any fallback paths, and it never raises (the two
probe exceptions are caught; the function is total). -/
theorem C6_locator (probe : GsProbe) (fs : FS) :
    check_ghostscript_installed probe fs = true ↔ probe = GsProbe.versionOk := by
  cases probe <;> simp [check_ghostscript_installed]

/-- Counterexample to claim C9 as stated: the instant 00:21:30 lies in
the minute-of-day window 00:21, yet `is_restricted_time` returns
false -- the source compares the full time, seconds and microseconds
included, for exact equality. -/
theorem C9_counterexample :
    (PyTime.mk 0 21 30 0).hour = 0 ∧ (PyTime.mk 0 21 30 0).minute = 21 ∧
    is_restricted_time (PyTime.mk 0 21 30 0) = false := by
  refine ⟨rfl, rfl, ?_⟩
  simp [is_restricted_time, restricted_time]

/-- Claim C9 (amended): `is_restricted_time` returns true exactly at
the single instant 00:21:00.000000, and when the tool gate passes the
script refuses with the restricted outcome exactly at that instant
(not throughout the minute). -/
theorem C9_restriction :
    (∀ t : PyTime, is_restricted_time t = true ↔ t = restricted_time) ∧
    (∀ (env : Env) (fs0 : FS), check_ghostscript_installed env.probe fs0 = true →
      ((appMain env fs0).1 = ScriptOutcome.restricted ↔ env.now = restricted_time)) := by
  constructor
  · intro t
    simp [is_restricted_time]
  · intro env fs0 hgs
    unfold appMain
    rw [hgs]
    simp only [Bool.not_true, Bool.false_eq_true, if_false]
    by_cases hr : is_restricted_time env.now
    · simp only [hr, if_true]
      simpa [is_restricted_time] using hr
    · simp only [hr, if_false]
      constructor
      · intro hout
        exfalso
        rcases hu : env.upload with _ | ⟨name, size⟩ <;> rw [hu] at hout <;>
          simp_all <;> split at hout <;> simp_all <;> split at hout <;> simp_all
      · intro hnow
        exfalso
        have : is_restricted_time env.now = true := by
          simp [is_restricted_time, hnow]
        simp [this] at hr

/-- Claim C2 (divergence witness): with a 0-byte upload and a
successful tool run writing 400 bytes, the pipeline performs the
unguarded division and the run fails with `ZeroDivisionError` caught by
the generic handler -- there is no `SizeMeasurementError` anywhere in
the code. -/
theorem C2_zero_division :
    (pipelineRun ⟨0, "", some 400⟩ "ebook" "in.pdf" "out.pdf" 0 FS.empty).1 =
      Display.errorShown PyExc.zeroDivisionError := by
  rfl

/-- A failing Ghostscript run (nonzero exit) that writes nothing. -/
def gsFail : GsRun := ⟨1, "boom", none⟩

/-- Counterexample to claim C5 as stated: after the staging step and a
failed invocation, a file does exist at the output temporary path --
`tempfile.NamedTemporaryFile` with `delete=False` creates the file at
allocation time. -/
theorem C5_counterexample :
    (pipelineBody gsFail "ebook" "in.pdf" "out.pdf"
        (stagedFS FS.empty "in.pdf" "out.pdf" 10)).1 =
      Except.error (PyExc.runtimeError
        ("Ghostscript compression failed: " ++ String.trim "boom")) ∧
    FS.pathExists (pipelineBody gsFail "ebook" "in.pdf" "out.pdf"
        (stagedFS FS.empty "in.pdf" "out.pdf" 10)).2 "out.pdf" = true := by
  constructor
  · rfl
  · rfl

/-- The try-block never deletes the output temp file: whatever the
invocation outcome, if the output path existed before the body it
still exists after it. -/
theorem pipelineBody_preserves_output (g : GsRun) (quality inputPath outputPath : String)
    (fs : FS) (h : FS.pathExists fs outputPath = true) :
    FS.pathExists (pipelineBody g quality inputPath outputPath fs).2 outputPath = true := by
  unfold pipelineBody compress_pdf_gs
  rcases g with ⟨ec, se, ow⟩
  cases hin : FS.getsize fs inputPath
  · simpa using h
  · by_cases hq : quality ∈ qualities
    · rw [if_neg (not_not_intro hq)]
      cases ow <;> by_cases he : ec = 0 <;>
        simp_all [FS.pathExists, FS.write, FS.getsize] <;>
        split <;> simp_all [FS.pathExists, FS.write, FS.getsize] <;>
        split <;> simp_all [FS.pathExists, FS.write, FS.getsize]
    · simp_all

/-- Claim C5 (amended): the staging step itself creates an (empty) file
at the output temporary path -- `NamedTemporaryFile(delete=False)`
creates the file at allocation -- and that file exists from staging
until cleanup regardless of the invoker's outcome, in particular after
a failed invocation. -/
theorem C5_output_created_at_staging (g : GsRun) (quality inputPath outputPath : String)
    (uploadSize : Nat) (fs0 : FS) :
    FS.pathExists (stagedFS fs0 inputPath outputPath uploadSize) outputPath = true ∧
    FS.pathExists (pipelineBody g quality inputPath outputPath
        (stagedFS fs0 inputPath outputPath uploadSize)).2 outputPath = true := by
  have hstage : FS.pathExists (stagedFS fs0 inputPath outputPath uploadSize) outputPath = true := by
    simp [stagedFS, FS.pathExists, FS.write]
  exact ⟨hstage, pipelineBody_preserves_output _ _ _ _ _ hstage⟩

/-- Claim C7: when the tool probe fails, the script halts at the
availability gate with the install guidance and the filesystem is
untouched -- no temporary file is created, no upload or compression
logic runs. -/
theorem C7_gate (env : Env) (fs0 : FS)
    (h : check_ghostscript_installed env.probe fs0 = false) :
    appMain env fs0 = (ScriptOutcome.toolUnavailable installInstructions, fs0) := by
  unfold appMain
  rw [h]
  simp

/-- A run environment in which the Ghostscript probe raises
`FileNotFoundError`, with an upload pending and the button pressed. -/
def envNoGs : Env :=
  ⟨GsProbe.fileNotFound, ⟨12, 0, 0, 0⟩, some ("doc.pdf", 1000),
   CompressionChoice.medium, true, ⟨0, "", some 400⟩, "in.pdf", "out.pdf"⟩

/-- Witness for C7: the concrete no-Ghostscript run halts at the gate
and leaves the empty filesystem empty. -/
theorem C7_gate_witness :
    appMain envNoGs FS.empty = (ScriptOutcome.toolUnavailable installInstructions, FS.empty) :=
  C7_gate envNoGs FS.empty rfl

/-- Claim C8: a successful run with distinct temp paths, a positive
original size and a tool that writes the output reports exactly
`(1 - compressed/original) * 100` as the reduction percentage. -/
theorem C8_ratio_formula (g : GsRun) (quality inputPath outputPath : String)
    (uploadSize c : Nat) (fs0 : FS)
    (hio : inputPath ≠ outputPath) (hsz : 0 < uploadSize)
    (hq : quality ∈ qualities) (he : g.exitCode = 0) (hw : g.outWrite = some c) :
    (pipelineRun g quality inputPath outputPath uploadSize fs0).1 =
      Display.success uploadSize c ((1 - (c : ℚ) / (uploadSize : ℚ)) * 100) := by
  unfold pipelineRun pipelineBody compress_pdf_gs stagedFS
  rw [if_neg (not_not_intro hq)]
  simp [FS.getsize, FS.write, hio, he, hw, displayOf, Nat.pos_iff_ne_zero.mp hsz]

/-- Witness for C8 at the spec's example: 1000 bytes in, 400 bytes out,
reported reduction exactly 60%. -/
theorem C8_ratio_formula_witness :
    (pipelineRun ⟨0, "", some 400⟩ "ebook" "a.pdf" "b.pdf" 1000 FS.empty).1 =
      Display.success 1000 400 ((1 - ((400 : Nat) : ℚ) / ((1000 : Nat) : ℚ)) * 100) ∧
    (1 - ((400 : Nat) : ℚ) / ((1000 : Nat) : ℚ)) * 100 = 60 :=
  ⟨C8_ratio_formula ⟨0, "", some 400⟩ "ebook" "a.pdf" "b.pdf" 1000 400 FS.empty
     (by decide) (by decide) (by decide) rfl rfl,
   by norm_num⟩

/-- For any preset in the enumerated set, `compress_pdf_gs` never takes
the invalid-preset branch. -/
theorem compress_valid_not_invalid (g : GsRun) (fs : FS) (i o q : String)
    (hq : q ∈ qualities) :
    isInvalidPreset (compress_pdf_gs g fs i o q).1 = false := by
  unfold compress_pdf_gs
  rw [if_neg (not_not_intro hq)]
  by_cases he : g.exitCode = 0 <;> simp [he, isInvalidPreset]

/-- Claim C10: every compression level selectable through either
variant's UI maps to a preset in the enumerated valid set, so the
invalid-preset branch of `compress_pdf_gs` is unreachable from the UI. -/
theorem C10_ui_presets_valid :
    (∀ c : CompressionChoice, quality_map c ∈ qualities) ∧
    (∀ c : CompressionChoiceV2, qualityOfV2 c ∈ qualities) ∧
    (∀ (c : CompressionChoice) (g : GsRun) (fs : FS) (i o : String),
      isInvalidPreset (compress_pdf_gs g fs i o (quality_map c)).1 = false) := by
  refine ⟨?_, ?_, ?_⟩
  · intro c
    cases c <;> decide
  · intro c
    cases c <;> decide
  · intro c g fs i o
    exact compress_valid_not_invalid g fs i o _ (by cases c <;> decide)

/-- Witness for the amended C6: with a successful probe the locator
reports present; with a failed probe it reports absent. -/
theorem C6_locator_witness :
    check_ghostscript_installed GsProbe.versionOk FS.empty = true ∧
    check_ghostscript_installed GsProbe.calledProcessError FS.empty ≠ true :=
  ⟨(C6_locator GsProbe.versionOk FS.empty).mpr rfl,
   fun h => by simpa using (C6_locator GsProbe.calledProcessError FS.empty).mp h⟩

/-- A run environment at exactly 00:21:00.000000 with Ghostscript
available. -/
def envRestricted : Env :=
  ⟨GsProbe.versionOk, ⟨0, 21, 0, 0⟩, some ("doc.pdf", 1000),
   CompressionChoice.medium, true, ⟨0, "", some 400⟩, "in.pdf", "out.pdf"⟩

/-- Witness for the amended C9: the exact instant 00:21:00.000000 is
restricted and makes the script refuse the run. -/
theorem C9_restriction_witness :
    is_restricted_time ⟨0, 21, 0, 0⟩ = true ∧
    (appMain envRestricted FS.empty).1 = ScriptOutcome.restricted :=
  ⟨(C9_restriction.1 ⟨0, 21, 0, 0⟩).mpr rfl,
   (C9_restriction.2 envRestricted FS.empty rfl).mpr rfl⟩
